import Mathlib

/-!
# Project H.I.V.E — verification of the specification against the source

Shallow embedding of the parts of the repository that the claims concern:

* the Log Collector pipeline
  (`log_manager/log_collector/Logger_Subscriber.py`): JSON decode,
  duration enrichment, geolocation enrichment, OpenSearch indexing and
  JetStream acknowledgement;
* the Honeypot Manager model (`honeypot_manager/models/Honeypot.py`):
  type catalog with on-disk configuration and built-in defaults,
  container creation with labels, lifecycle verbs;
* the HTTP controller
  (`honeypot_manager/controllers/honeypot_manager_controller.py`):
  error mapping `_err` / `_simplify_error_message`, label-based
  discovery, the port-check endpoint;
* the shared helpers (`common/helpers.py`): `NetworkManager`,
  `ImageManager`, `BaseContainerManager`.

External collaborators (the `dateutil` parser, the GeoIP database, the
OpenSearch client, the Podman runtime) enter the model as parameters or
as outcome values, exactly at the points where the Python code calls
out to them.
-/

namespace HIVE

/-! ## Log Collector (`Logger_Subscriber.py`) -/

/-- Python truthiness of `data.get(key)` for a string-valued field:
`None` and the empty string are falsy (`if entry_time and exit_time`). -/
def truthy : Option String → Bool
  | none => false
  | some s => !(s = "")

/-- Python datetimes have microsecond resolution, so an instant is an
integer count of microseconds since the epoch, and
`(exit - entry).total_seconds()` is exactly `μ / 10^6` for the
microsecond difference `μ`.  `int(...)` truncates toward zero, so
`int((exit - entry).total_seconds())` is this function (float roundoff
of `total_seconds`, which only appears for astronomically large
differences, is not modelled). -/
def intTotalSeconds (μ : ℤ) : ℤ :=
  if 0 ≤ μ then μ / 1000000 else -((-μ) / 1000000)

/-- The value the spec asks for:
`floor((exit - entry).total_seconds())` for a microsecond difference
`μ`, i.e. `⌊μ / 10^6⌋`. -/
def floorTotalSeconds (μ : ℤ) : ℤ := ⌊(μ : ℚ) / 1000000⌋

/-- The duration-enrichment step of `message_handler` (lines 79–94 of
`Logger_Subscriber.py`).  `parseTs` stands for `dateutil.parser.parse`,
returning the parsed instant as microseconds since the epoch, or
`none` when parsing raises.  Result: `none` when the field is not set
on the document, `some d` when `data["duration_of_attack"] = d` is
set.  When both fields are truthy and either parse raises, the
handler's inner `except` sets the duration to `0`. -/
def durationUpdate (parseTs : String → Option ℤ)
    (entryTime exitTime : Option String) : Option ℤ :=
  if truthy entryTime ∧ truthy exitTime then
    match entryTime, exitTime with
    | some e, some x =>
      match parseTs e, parseTs x with
      | some a, some b => some (intTotalSeconds (b - a))
      | _, _ => some 0
    | _, _ => some 0
  else none

/-- Outcome of the `geoip_reader.city(ip)` call: the address is not in
the database (`AddressNotFoundError`), some other exception (including
`city(None)` when `attacker_ip` is absent), or a response carrying
optional latitude / longitude and an optional country name. -/
inductive CityOutcome where
  | raisesNotFound : CityOutcome
  | raisesOther : CityOutcome
  | ok (latitude longitude : Option ℚ) (countryName : Option String) : CityOutcome
  deriving DecidableEq

/-- Successful result of `lookup_geolocation`: the geo_point object and
the country keyword that `message_handler` merges into the document. -/
structure GeoData where
  lat : ℚ
  lon : ℚ
  country : String
  deriving DecidableEq

/-- Python `response.country.name or "Unknown"`: `None` and the empty
string are replaced by `"Unknown"`. -/
def countryOrUnknown : Option String → String
  | none => "Unknown"
  | some s => if s = "" then "Unknown" else s

/-- `lookup_geolocation` (lines 109–151 of `Logger_Subscriber.py`).
Returns `none` when the reader raises, when either coordinate is
missing, or when a coordinate is out of the WGS-84 ranges; otherwise
the `{location: {lat, lon}, country}` payload. -/
def lookupGeolocation (city : Option String → CityOutcome)
    (ipAddress : Option String) : Option GeoData :=
  match city ipAddress with
  | CityOutcome.raisesNotFound => none
  | CityOutcome.raisesOther => none
  | CityOutcome.ok latitude longitude countryName =>
    match latitude, longitude with
    | some la, some lo =>
      if (-90 ≤ la ∧ la ≤ 90) ∧ (-180 ≤ lo ∧ lo ≤ 180) then
        some { lat := la, lon := lo, country := countryOrUnknown countryName }
      else none
    | _, _ => none

/-- The fields of the raw bus message that the enrichment steps read
(`data.get("attacker_ip")`, `data.get("time_of_entry")`,
`data.get("time_of_exit")`). -/
structure RawEvent where
  attackerIp : Option String
  timeOfEntry : Option String
  timeOfExit : Option String
  deriving DecidableEq

/-- The enriched fields of the indexed document. -/
structure Document where
  durationOfAttack : Option ℤ
  location : Option (ℚ × ℚ)
  country : Option String
  timestampSet : Bool
  deriving DecidableEq

/-- The enrichment performed by `message_handler` on a decoded message,
plus the `@timestamp` stamp that `insert_into_opensearch` adds before
indexing. -/
def enrich (parseTs : String → Option ℤ) (city : Option String → CityOutcome)
    (ev : RawEvent) : Document :=
  let g := lookupGeolocation city ev.attackerIp
  { durationOfAttack := durationUpdate parseTs ev.timeOfEntry ev.timeOfExit
    location := g.map (fun gd => (gd.lat, gd.lon))
    country := g.map (fun gd => gd.country)
    timestampSet := true }

/-- Outcome of `client.index` inside `insert_into_opensearch`:
success, or one of the exception classes the function catches. -/
inductive IndexOutcome where
  | success : IndexOutcome
  | connectionError : IndexOutcome
  | authorizationError : IndexOutcome
  | requestError : IndexOutcome
  | otherError : IndexOutcome
  deriving DecidableEq

/-- `insert_into_opensearch` (lines 153–182 of `Logger_Subscriber.py`).
Every exception class is caught and logged inside the function; it
returns `True` on success and `False` on every failure, and never
raises to its caller. -/
def insertIntoOpensearch : IndexOutcome → Bool
  | IndexOutcome.success => true
  | _ => false

/-- Observable outcome of one `message_handler` invocation:
whether `msg.ack()` completed, whether the document reached the index,
whether an exception was caught by the handler's outer `except`
(rather than propagating to the consumer loop), and the enriched
document that was sent to the index (`none` when decoding failed). -/
structure HandlerOutcome where
  acked : Bool
  indexed : Bool
  raisedInternally : Bool
  doc : Option Document
  deriving DecidableEq

/-- `message_handler` (lines 73–107 of `Logger_Subscriber.py`).
`decoded` is the result of `json.loads` (`none` when it raises);
`idx` the outcome of the `client.index` call; `ackRaises` injects a
failure of `msg.ack()` itself.  The whole body sits in
`try ... except Exception`, so every exception ends in the outer
handler, which only logs.  Note that the boolean returned by
`insert_into_opensearch` is ignored and `msg.ack()` runs
unconditionally after it. -/
def messageHandler (parseTs : String → Option ℤ)
    (city : Option String → CityOutcome)
    (decoded : Option RawEvent) (idx : IndexOutcome) (ackRaises : Bool) :
    HandlerOutcome :=
  match decoded with
  | none => { acked := false, indexed := false, raisedInternally := true, doc := none }
  | some ev =>
    let doc := enrich parseTs city ev
    let ok := insertIntoOpensearch idx
    if ackRaises then
      { acked := false, indexed := ok, raisedInternally := true, doc := some doc }
    else
      { acked := true, indexed := ok, raisedInternally := false, doc := some doc }

/-! ## String helpers

Small executable substring utilities used to embed the Python string
handling (`in`, `re.search` on fixed patterns, `str.split`). -/

/-- Index of the first occurrence of `pat` in `l`, if any. -/
def listFind : List Char → List Char → Option Nat
  | l, pat =>
    match l with
    | [] => if pat = [] then some 0 else none
    | _ :: rest => if pat <+: l then some 0 else (listFind rest pat).map (· + 1)

/-- Python `t in s` on strings. -/
def strContains (s t : String) : Bool := (listFind s.data t.data).isSome

/-- Lower-cased copy, for the `re.IGNORECASE` searches and `.lower()`. -/
def strLower (s : String) : String := String.mk (s.data.map Char.toLower)

/-- Case-insensitive containment (a `re.search(..., re.IGNORECASE)` on a
pattern with no metacharacters). -/
def strContainsCI (s t : String) : Bool := strContains (strLower s) (strLower t)

/-- Split around the first occurrence of `t`: the text before it and
the text after it. -/
def splitFirst (s t : String) : Option (String × String) :=
  (listFind s.data t.data).map fun i =>
    (String.mk (s.data.take i), String.mk (s.data.drop (i + t.data.length)))

/-- Python `s.split(sep)` for a single-character separator. -/
def splitOnChar (sep : Char) (s : String) : List String :=
  (s.data.splitOn sep).map String.mk

/-- A single apostrophe, as used by the Python f-strings that quote
type names in error messages. -/
def sq : String := String.singleton (Char.ofNat 39)

/-! ## Honeypot type catalog (`HoneypotConfig` in `models/Honeypot.py`) -/

/-- One entry of the type catalog: container-port mapping
(port spec ↦ config variable), named volumes, optional passive range. -/
structure ConfigEntry where
  ports : List (String × String)
  volumes : List String
  passivePorts : Option (Nat × Nat)
  deriving DecidableEq

/-- `HoneypotConfig.DEFAULT_CONFIGS` (lines 24–35): the built-in
fallback catalog, holding exactly the keys `ssh` and `ftp`. -/
def DEFAULT_CONFIGS : List (String × ConfigEntry) :=
  [("ssh", { ports := [("22/tcp", "honeypot_port")], volumes := [], passivePorts := none }),
   ("ftp", { ports := [("21/tcp", "honeypot_port")], volumes := ["malware", "logs"],
             passivePorts := some (60000, 60100) })]

/-- How the attempt to read `config/honeypot_configs.yaml` went:
the file is missing, opening/reading it raised, `yaml.safe_load`
raised, or a document was obtained.  The `parsed` case also covers the
mtime-cache hit of `load_configs`, which returns a previously parsed
document. -/
inductive LoadAttempt where
  | missing : LoadAttempt
  | readErr : LoadAttempt
  | yamlErr : LoadAttempt
  | parsed (cfg : List (String × ConfigEntry)) : LoadAttempt
  deriving DecidableEq

/-- `HoneypotConfig.load_configs` (lines 40–68): a missing file returns
the defaults, any exception while reading or parsing is caught and
returns the defaults, otherwise the loaded document. -/
def load_configs : LoadAttempt → List (String × ConfigEntry)
  | LoadAttempt.missing => DEFAULT_CONFIGS
  | LoadAttempt.readErr => DEFAULT_CONFIGS
  | LoadAttempt.yamlErr => DEFAULT_CONFIGS
  | LoadAttempt.parsed cfg => cfg

/-- `HoneypotConfig.type_exists` (lines 85–89): key membership in the
loaded catalog. -/
def type_exists (a : LoadAttempt) (honeypotType : String) : Bool :=
  ((load_configs a).lookup honeypotType).isSome

/-- `HoneypotConfig.get_available_types` (lines 79–83). -/
def get_available_types (a : LoadAttempt) : List String :=
  (load_configs a).map Prod.fst

/-! ## Honeypot-manager error taxonomy

`honeypot_manager/util/exceptions.py` (complete declaration list as
shipped under `Project-HIVE-Linux/_internal`).  Each constructor
carries the exception's message (`str(exc)`). -/

/-- The exception classes of the honeypot control plane, plus the
built-in Python exceptions the controller's `_ERROR_MAP` knows. -/
inductive HpExc where
  | existsErr (msg : String) : HpExc
  | typeNotFound (msg : String) : HpExc
  | imageErr (msg : String) : HpExc
  | containerErr (msg : String) : HpExc
  | privilegedPort (msg : String) : HpExc
  | activeConnections (msg : String) : HpExc
  | portInUse (msg : String) : HpExc
  | base (msg : String) : HpExc
  | fileNotFound (msg : String) : HpExc
  | permissionErr (msg : String) : HpExc
  | podmanErr (msg : String) : HpExc
  deriving DecidableEq

/-- The message carried by an exception (`str(exc)`). -/
def HpExc.msg : HpExc → String
  | existsErr m => m
  | typeNotFound m => m
  | imageErr m => m
  | containerErr m => m
  | privilegedPort m => m
  | activeConnections m => m
  | portInUse m => m
  | base m => m
  | fileNotFound m => m
  | permissionErr m => m
  | podmanErr m => m

/-! ## Honeypot creation (`Honeypot.create_honeypot`, lines 117–168) -/

/-- `f'hive-{honeypot_type}-{honeypot_port}'`. -/
def honeypotName (t : String) (p : Nat) : String :=
  "hive-" ++ t ++ "-" ++ toString p

/-- Message of the unknown-type error raised by `create_honeypot` and
`HoneypotConfig.get_config`. -/
def unknownTypeMsg (t : String) : String :=
  "Honeypot type " ++ sq ++ t ++ sq ++ " not found in configuration"

/-- Message of `HoneypotPrivilegedPortError` raised by `validate_port`. -/
def privilegedPortMsg (p : Nat) : String :=
  "Cannot use privileged port " ++ toString p ++
    ". Please use a port number >= 1024 or configure your system to allow rootless containers to use privileged ports."

/-- `HoneypotConfig.get_config` (lines 70–77): raises
`HoneypotTypeNotFoundError` when the key is absent from the loaded
catalog. -/
def get_config (a : LoadAttempt) (honeypotType : String) : Except HpExc ConfigEntry :=
  match (load_configs a).lookup honeypotType with
  | some c => Except.ok c
  | none => Except.error (HpExc.typeNotFound (unknownTypeMsg honeypotType))

/-- The `try`-block of `create_honeypot`, before its `except` clauses
rewrap the raised exception.  Parameters stand for the environment the
code probes: the catalog load attempt, `os.geteuid()`, whether the
type's build directory exists, the names of existing containers, and
the outcomes of the image probe, the image build and the container
creation.  The recursive re-entry after a successful image build
(line 156) is unfolded one step: on re-entry every earlier check
passes unchanged and the image now exists, so the result is decided by
the container creation. -/
def createBody (a : LoadAttempt) (euid : Nat) (dirExists : Bool)
    (existing : List String) (imageExists buildOk containerOk : Bool)
    (t : String) (p : Nat) : Except HpExc Unit :=
  if ¬ type_exists a t then
    Except.error (HpExc.typeNotFound (unknownTypeMsg t))
  else if p < 1024 ∧ euid ≠ 0 then
    Except.error (HpExc.privilegedPort (privilegedPortMsg p))
  else if ¬ dirExists then
    Except.error (HpExc.fileNotFound ("Honeypot directory not found: honeypots/" ++ t))
  else if honeypotName t p ∈ existing then
    Except.error (HpExc.existsErr "Honeypot already exists")
  else if imageExists then
    if containerOk then Except.ok ()
    else Except.error (HpExc.containerErr "Failed to create Honeypot container")
  else if buildOk then
    if containerOk then Except.ok ()
    else Except.error (HpExc.containerErr "Failed to create Honeypot container")
  else
    Except.error (HpExc.imageErr "Failed to build image for the honeypot")

/-- The `except` clauses of `create_honeypot` (lines 162–168):
`FileNotFoundError` is re-raised as `HoneypotError("File not found: …")`;
every exception of the honeypot family — `HoneypotExistsError` and the
other subclasses included — is re-raised as the *base*
`HoneypotError(str(e))`, erasing the subclass; `PodmanError` is
re-raised unchanged; anything else (e.g. `PermissionError`) propagates. -/
def wrapCreateErr : HpExc → HpExc
  | HpExc.fileNotFound m => HpExc.base ("File not found: " ++ m)
  | HpExc.existsErr m => HpExc.base m
  | HpExc.typeNotFound m => HpExc.base m
  | HpExc.imageErr m => HpExc.base m
  | HpExc.containerErr m => HpExc.base m
  | HpExc.privilegedPort m => HpExc.base m
  | HpExc.activeConnections m => HpExc.base m
  | HpExc.portInUse m => HpExc.base m
  | HpExc.base m => HpExc.base m
  | e => e

/-- `Honeypot.create_honeypot` (lines 117–168): the `try` body followed
by the `except` rewrapping. -/
def create_honeypot (a : LoadAttempt) (euid : Nat) (dirExists : Bool)
    (existing : List String) (imageExists buildOk containerOk : Bool)
    (t : String) (p : Nat) : Except HpExc Unit :=
  match createBody a euid dirExists existing imageExists buildOk containerOk t p with
  | Except.ok () => Except.ok ()
  | Except.error e => Except.error (wrapCreateErr e)

/-! ## Container labels and discovery -/

/-- The labels passed to `containers.create` by `_build_container`
(lines 281–285 of `models/Honeypot.py`). -/
def buildContainerLabels (t : String) (p : Nat) : List (String × String) :=
  [("owner", "hive"), ("hive.type", t), ("hive.port", toString p)]

/-- Whether a container with the given labels is matched by the podman
filter `label=service=hive-honeypot-manager` that the controller's
`list_all` passes to `_list_ids` (lines 213–218 of the controller). -/
def listAllFilterMatches (labels : List (String × String)) : Bool :=
  labels.lookup "service" = some "hive-honeypot-manager"

/-! ## Controller error mapping
(`honeypot_manager_controller.py`, lines 64–182) -/

/-- Case-insensitive variant of `listFind`. -/
def findCI (s t : String) : Option Nat :=
  listFind (s.data.map Char.toLower) (t.data.map Char.toLower)

/-- Case-insensitive `splitFirst` (slices the original string at the
position found case-insensitively). -/
def splitFirstCI (s t : String) : Option (String × String) :=
  (findCI s t).map fun i =>
    (String.mk (s.data.take i), String.mk (s.data.drop (i + t.data.length)))

/-- Python `str.strip()`. -/
def stripWS (s : String) : String :=
  String.mk (((s.data.dropWhile Char.isWhitespace).reverse.dropWhile Char.isWhitespace).reverse)

/-- The fixed-text fragments of the regexes in `_ERROR_PATTERNS`
(lines 86–117 of the controller).  Each matcher tests the fixed parts
of its pattern case-insensitively; the capture-group constraints
(`[^ ]+`, `[^"]+`, `[a-f0-9]+`) are not re-checked, which is faithful
for messages in which the fixed fragments only occur in pattern
position. -/
def patternHit (m : String) : Option Nat :=
  if (strContainsCI m ("creating container storage: the container name \"")
      && strContainsCI m ("\" is already in use")) then some 1
  else if (strContainsCI m ("Honeypot ") && strContainsCI m (" already exists by ")) then some 2
  else if strContainsCI m ("permission denied") then some 3
  else if (strContainsCI m ("no such container") && strContainsCI m ("\"")) then some 4
  else if (strContainsCI m ("container ") && strContainsCI m (" is already running")) then some 5
  else if (strContainsCI m ("container ") && strContainsCI m (" is not running")) then some 6
  else none

/-- The `re.sub` rewrite of the pattern that hit, approximated at the
first occurrence (replacement text as in `_ERROR_PATTERNS`). -/
def patternRewrite (k : Nat) (m : String) : String :=
  match k with
  | 1 =>
    match splitFirstCI m ("creating container storage: the container name \"") with
    | some (before, rest) =>
      let name := String.mk (rest.data.takeWhile (· ≠ '"'))
      match splitFirstCI rest ("\" is already in use") with
      | some (_, tail) => before ++ "Honeypot " ++ name ++ " already exists" ++ tail
      | none => m
    | none => m
  | 2 =>
    match splitFirstCI m ("Honeypot ") with
    | some (before, rest) =>
      match splitFirstCI rest (" already exists by ") with
      | some (name, tail) =>
        let afterId := String.mk (tail.data.dropWhile (· ≠ ' '))
        before ++ "Honeypot " ++ name ++
          " already exists. Please use a different port for this honeypot type." ++ afterId
      | none => m
    | none => m
  | 3 =>
    match splitFirstCI m ("permission denied") with
    | some (before, _) => before ++ "Permission denied - check container privileges"
    | none => m
  | 4 =>
    match splitFirstCI m ("no such container") with
    | some (before, rest) =>
      match splitFirstCI rest ("\"") with
      | some (_, q) =>
        let name := String.mk (q.data.takeWhile (· ≠ '"'))
        before ++ "Honeypot " ++ name ++ " not found"
      | none => m
    | none => m
  | 5 =>
    match splitFirstCI m ("container ") with
    | some (before, rest) =>
      match splitFirstCI rest (" is already running") with
      | some (name, tail) => before ++ "Honeypot " ++ name ++ " is already running" ++ tail
      | none => m
    | none => m
  | 6 =>
    match splitFirstCI m ("container ") with
    | some (before, rest) =>
      match splitFirstCI rest (" is not running") with
      | some (name, tail) => before ++ "Honeypot " ++ name ++ " is not running" ++ tail
      | none => m
    | none => m
  | _ => m

/-- The token captured by `re.search(r'--name ([^ ]+)', message)`. -/
def nameAfterFlag (m : String) : Option String :=
  (splitFirst m ("--name ")).map fun (_, rest) =>
    String.mk (rest.data.takeWhile (· ≠ ' '))

/-- `_simplify_error_message` (lines 119–144 of the controller):
first the six `_ERROR_PATTERNS`, then the special handling of
"already exists" messages, then truncation of long messages holding
"Error:", else the message unchanged. -/
def _simplify_error_message (message : String) : String :=
  match patternHit message with
  | some k => patternRewrite k message
  | none =>
    if strContains message ("that name is already in use")
        || strContains message ("already exists") then
      match nameAfterFlag message with
      | some honeypotName =>
        let parts := splitOnChar '-' honeypotName
        let honeypotType := if parts.length > 2 then parts.getD 1 "" else "unknown"
        let honeypotPort := if parts.length > 2 then parts.getD 2 "" else "unknown"
        "A honeypot of type " ++ sq ++ honeypotType ++ sq ++ " with port " ++
          honeypotPort ++ " already exists. Please use a different port."
      | none => "A honeypot with this name already exists. Please use a different port."
    else if message.length > 100 && strContains message ("Error:") then
      match splitFirst message ("Error:") with
      | some (_, rest) => "Error: " ++ stripWS rest
      | none => message
    else message

/-- Python `type(exc).__name__` for each modelled exception class. -/
def pyTypeName : HpExc → String
  | HpExc.existsErr _ => "HoneypotExistsError"
  | HpExc.typeNotFound _ => "HoneypotTypeNotFoundError"
  | HpExc.imageErr _ => "HoneypotImageError"
  | HpExc.containerErr _ => "HoneypotContainerError"
  | HpExc.privilegedPort _ => "HoneypotPrivilegedPortError"
  | HpExc.activeConnections _ => "HoneypotActiveConnectionsError"
  | HpExc.portInUse _ => "HoneypotPortInUseError"
  | HpExc.base _ => "HoneypotError"
  | HpExc.fileNotFound _ => "FileNotFoundError"
  | HpExc.permissionErr _ => "PermissionError"
  | HpExc.podmanErr _ => "PodmanError"

/-- `_ERROR_MAP` (lines 64–83 of the controller): exact-type lookup of
(default message, HTTP status).  `HoneypotPortInUseError` is *not* in
the map, hence `none`. -/
def errorMapLookup : HpExc → Option (String × Nat)
  | HpExc.existsErr _ => some ("Honeypot already exists with this name and port", 409)
  | HpExc.imageErr _ => some ("Failed to build / pull honeypot image", 500)
  | HpExc.containerErr _ => some ("Container operation failed", 500)
  | HpExc.privilegedPort _ => some ("Port <1024 needs CAP_NET_BIND_SERVICE or root privileges", 400)
  | HpExc.activeConnections _ => some ("Active inbound connections detected – refuse operation", 423)
  | HpExc.typeNotFound _ => some ("Unknown honeypot type", 404)
  | HpExc.base _ => some ("Honeypot operation error", 500)
  | HpExc.podmanErr _ => some ("Podman runtime error", 500)
  | HpExc.fileNotFound _ => some ("Configuration not found", 404)
  | HpExc.permissionErr _ => some ("Permission denied", 403)
  | HpExc.portInUse _ => none

/-- `_err` (lines 146–182 of the controller), as the
(status, detail) pair of the `HTTPException` it raises.  The dedicated
`HoneypotExistsError` branch parses the honeypot name out of `str(exc)`
and answers 409; every other exception goes through
`_simplify_error_message` and the `_ERROR_MAP` default lookup. -/
def _errResponse (e : HpExc) : Nat × String :=
  match e with
  | HpExc.existsErr name =>
    let parts := splitOnChar '-' name
    if parts.length ≥ 3 then
      (409, "A honeypot of type " ++ sq ++ parts.getD 1 "" ++ sq ++ " using port " ++
        parts.getD 2 "" ++ " already exists. Please use a different port.")
    else
      (409, "Honeypot " ++ sq ++ name ++ sq ++
        " already exists. Please use a different name or port.")
  | _ =>
    let m := _simplify_error_message e.msg
    match errorMapLookup e with
    | some (dflt, code) => (code, if m = pyTypeName e then dflt else m)
    | none => (500, m)

/-! ## Honeypot lifecycle verbs (`models/Honeypot.py`, lines 371–416) -/

/-- Outcome of the podman `stop` call made by `stop_honeypot`. -/
inductive StopOutcome where
  | ok : StopOutcome
  | noSuchContainer : StopOutcome
  | containerNotRunning : StopOutcome
  | otherErr (msg : String) : StopOutcome
  deriving DecidableEq

/-- `Honeypot.stop_honeypot` (lines 371–392): success on a clean stop
or on "container not running"; `HoneypotContainerError` otherwise. -/
def stop_honeypot (name : String) : StopOutcome → Except HpExc Bool
  | StopOutcome.ok => Except.ok true
  | StopOutcome.noSuchContainer =>
    Except.error (HpExc.containerErr ("Container not found: " ++ name))
  | StopOutcome.containerNotRunning => Except.ok true
  | StopOutcome.otherErr m =>
    Except.error (HpExc.containerErr ("Failed to stop honeypot: " ++ m))

/-- Outcome of the podman `remove` call made by `delete_honeypot`. -/
inductive RemoveOutcome where
  | ok : RemoveOutcome
  | noSuchContainer : RemoveOutcome
  | removalInProgress : RemoveOutcome
  | otherErr (msg : String) : RemoveOutcome
  deriving DecidableEq

/-- `Honeypot.delete_honeypot` (lines 394–416): success on removal, on
"no such container" and on "removal already in progress";
`HoneypotContainerError` otherwise. -/
def delete_honeypot (name : String) : RemoveOutcome → Except HpExc Bool
  | RemoveOutcome.ok => Except.ok true
  | RemoveOutcome.noSuchContainer => Except.ok true
  | RemoveOutcome.removalInProgress => Except.ok true
  | RemoveOutcome.otherErr m =>
    Except.error (HpExc.containerErr ("Failed to delete honeypot: " ++ m))

/-! ## Active-connection guard (modelled from the spec)

The controller imports `HoneypotManager` and
`HoneypotActiveConnectionsError` (mapping the latter to HTTP 423) from
the newer honeypot model, which is not among the shipped source files;
only this caller and the exception declaration are.  The guard itself
is therefore modelled from the spec. -/

/-- Modelled from the spec: the active-connection probe of the missing
`HoneypotManager`.  "Any established session blocks `stop` and
`delete`.  If the probe tool is missing, the policy is conservative:
assume in-use."  `probePresent` is whether the host probe tool exists,
`established` the number of ESTABLISHED inbound TCP sessions on the
honeypot's host port at the time of the call. -/
def has_active_connections (probePresent : Bool) (established : Nat) : Bool :=
  if probePresent then decide (0 < established) else true

/-- The message carried by `HoneypotActiveConnectionsError`
(its class docstring default). -/
def activeConnectionsMsg : String :=
  "Active inbound connections detected"

/-- Modelled from the spec: `stop` of the missing `HoneypotManager` —
"stop and delete: fail with `ActiveConnections` when the host port has
at least one ESTABLISHED inbound TCP session"; otherwise the stop
proceeds as in `stop_honeypot`. -/
def stopGuarded (probePresent : Bool) (established : Nat) (name : String)
    (o : StopOutcome) : Except HpExc Bool :=
  if has_active_connections probePresent established then
    Except.error (HpExc.activeConnections activeConnectionsMsg)
  else stop_honeypot name o

/-- Modelled from the spec: `delete` of the missing `HoneypotManager`,
guarded like `stopGuarded`, then proceeding as in `delete_honeypot`. -/
def deleteGuarded (probePresent : Bool) (established : Nat) (name : String)
    (o : RemoveOutcome) : Except HpExc Bool :=
  if has_active_connections probePresent established then
    Except.error (HpExc.activeConnections activeConnectionsMsg)
  else delete_honeypot name o

/-! ## Port availability (`check_port_availability`, controller
lines 447–498) -/

/-- Modelled from the spec: `is_port_in_use` of the missing
`HoneypotManager`, called by the controller at line 481.  Per the
spec's port-check law, a port is in use iff a managed container claims
it (label query `hive.port=<port>`) or binding a TCP listener on
(0.0.0.0, port) fails.  `claimed` and `bindOk` are the outcomes of the
label query and of the bind attempt. -/
def is_port_in_use (claimed bindOk : Nat → Bool) (p : Nat) : Bool :=
  claimed p || !bindOk p

/-- The body of the port-check endpoint response. -/
structure PortCheck where
  available : Bool
  message : String
  deriving DecidableEq

/-- `check_port_availability` (controller lines 447–498), after the
integer parse of the path parameter: range validation to HTTP 400,
then the privileged-port refusal for non-root, then the
`is_port_in_use` consultation. -/
def check_port_availability (euid : Nat) (claimed bindOk : Nat → Bool)
    (p : Nat) : Except (Nat × String) PortCheck :=
  if ¬ (1 ≤ p ∧ p ≤ 65535) then
    Except.error (400, "Port must be between 1 and 65535")
  else if p < 1024 ∧ euid ≠ 0 then
    Except.ok { available := false
                message := "Port " ++ toString p ++
                  " is a privileged port (below 1024) and requires root access" }
  else if is_port_in_use claimed bindOk p then
    Except.ok { available := false
                message := "Port " ++ toString p ++
                  " is already in use by another honeypot or service" }
  else
    Except.ok { available := true
                message := "Port " ++ toString p ++ " is available" }

/-! ## Shared helpers (`common/helpers.py`) -/

/-- The observable runtime state the helper managers probe and mutate:
which networks, images and containers exist. -/
structure PodmanState where
  networks : List String
  images : List String
  containers : List String
  deriving DecidableEq

/-- The runtime-mutating commands the helpers can issue.  The
`preCreate` / `postCreate` markers record invocations of the
subclass hooks of `BaseContainerManager`. -/
inductive PodCmd where
  | networkCreate (name : String) : PodCmd
  | pull (image : String) : PodCmd
  | build (tag : String) : PodCmd
  | preCreate : PodCmd
  | containerCreate (name : String) : PodCmd
  | postCreate : PodCmd
  deriving DecidableEq

/-- `NetworkManager.ensure_exists` (helpers lines 186–193): probe
`podman network exists`; if present do nothing, else issue
`podman network create`.  Returns the new state and the commands
issued. -/
def network_ensure_exists (name : String) (s : PodmanState) :
    PodmanState × List PodCmd :=
  if name ∈ s.networks then (s, [])
  else ({ s with networks := name :: s.networks }, [PodCmd.networkCreate name])

/-- `ImageManager.ensure_pulled` (helpers lines 211–213): issues
`podman pull` unconditionally — there is no existence probe. -/
def image_ensure_pulled (image : String) (s : PodmanState) :
    PodmanState × List PodCmd :=
  ({ s with images := if image ∈ s.images then s.images else image :: s.images },
   [PodCmd.pull image])

/-- `ImageManager.ensure_built` (helpers lines 215–223): probe
`podman image exists`; build only when the tag is absent. -/
def image_ensure_built (tag : String) (s : PodmanState) :
    PodmanState × List PodCmd :=
  if tag ∈ s.images then (s, [])
  else ({ s with images := tag :: s.images }, [PodCmd.build tag])

/-- `BaseContainerManager.create` (helpers lines 250–259): when the
container already exists, log and return — no `pre_create`, no
`podman create`, no `post_create`; otherwise run all three. -/
def base_container_create (name : String) (s : PodmanState) :
    PodmanState × List PodCmd :=
  if name ∈ s.containers then (s, [])
  else ({ s with containers := name :: s.containers },
        [PodCmd.preCreate, PodCmd.containerCreate name, PodCmd.postCreate])

/-- Iterate a state-and-trace step `n` times, concatenating traces. -/
def iterateCmds (f : PodmanState → PodmanState × List PodCmd) :
    Nat → PodmanState → PodmanState × List PodCmd
  | 0, s => (s, [])
  | n + 1, s =>
    let (s', cs) := f s
    let (s'', cs') := iterateCmds f n s'
    (s'', cs ++ cs')

/-! ## Concrete fixtures

Closed sample inputs used by the concrete evaluations below: a
`dateutil` stub in which the entry timestamp parses to 1.5 s and the
exit timestamp to 1.0 s after the epoch, a forward-in-time variant, a
GeoIP stub that always raises, one that returns fixed coordinates, and
a sample decoded message. -/

/-- Timestamp parser fixture: `"E"` ↦ 1.5 s, `"X"` ↦ 1.0 s (in µs). -/
def parseFixture : String → Option ℤ :=
  fun s => if s = "E" then some 1500000 else if s = "X" then some 1000000 else none

/-- Timestamp parser fixture with exit after entry:
`"E"` ↦ 1.0 s, `"X"` ↦ 2.5 s (in µs). -/
def parseFixtureFwd : String → Option ℤ :=
  fun s => if s = "E" then some 1000000 else if s = "X" then some 2500000 else none

/-- GeoIP fixture: every lookup raises a non-`AddressNotFound` error. -/
def cityFixture : Option String → CityOutcome :=
  fun _ => CityOutcome.raisesOther

/-- GeoIP fixture: every lookup returns in-range coordinates and a
country name. -/
def geoCityFixture : Option String → CityOutcome :=
  fun _ => CityOutcome.ok (some 37) (some 122) (some "United States")

/-- A decoded message with an attacker address and no timestamps. -/
def eventFixture : RawEvent :=
  { attackerIp := some "1.2.3.4", timeOfEntry := none, timeOfExit := none }

/-- An empty runtime state. -/
def emptyPodman : PodmanState :=
  { networks := [], images := [], containers := [] }

/-! # Theorems -/

/-- Helper: the floor of `μ / 10^6` is Euclidean division by `10^6`. -/
lemma floorTotalSeconds_eq_ediv (μ : ℤ) : floorTotalSeconds μ = μ / 1000000 := by
  have h := Rat.floor_intCast_div_natCast μ 1000000
  simpa [floorTotalSeconds] using h

/-- C1: the claim states that a message whose payload decodes as JSON
is acked iff indexing succeeded, and that on a connection /
authorization / request-mapping error the message is left un-acked.
In the code, `insert_into_opensearch` catches those errors internally
and returns `False`, and `message_handler` ignores that boolean and
calls `msg.ack()` unconditionally: here a decoded message whose
indexing fails with a connection error is acked although the document
never reached the index. -/
theorem C1_ack_despite_failed_indexing :
    (messageHandler parseFixture cityFixture (some eventFixture)
      IndexOutcome.connectionError false).acked = true ∧
    (messageHandler parseFixture cityFixture (some eventFixture)
      IndexOutcome.connectionError false).indexed = false ∧
    insertIntoOpensearch IndexOutcome.connectionError = false :=
  ⟨rfl, rfl, rfl⟩

/-- C2: the claim states that every created honeypot container carries
the label `service=hive-honeypot-manager` (beside `hive.type`,
`hive.port` and the owner label) and is therefore returned by the
label-based discovery of `list_all`.  The labels `_build_container`
actually passes are exactly `owner`, `hive.type` and `hive.port` — no
`service` label — so the container created for `create("ssh", 2222)`
is not matched by the filter `label=service=hive-honeypot-manager`
that `list_all` uses. -/
theorem C2_missing_service_label :
    buildContainerLabels "ssh" 2222
      = [("owner", "hive"), ("hive.type", "ssh"), ("hive.port", "2222")] ∧
    (buildContainerLabels "ssh" 2222).lookup "service" = none ∧
    listAllFilterMatches (buildContainerLabels "ssh" 2222) = false :=
  ⟨rfl, rfl, rfl⟩

/-- C3: the claim states that a duplicate `create(t, p)` fails with
`HoneypotExistsError` and is mapped by the HTTP layer to 409 with a
detail containing "already exists" and the port number.  In the code,
`create_honeypot` raises `HoneypotExistsError('Honeypot already
exists')` but its own `except` clause re-raises it as the *base*
`HoneypotError`, so `_err` never reaches its `HoneypotExistsError`
branch: the duplicate create for `("ssh", 2222)` is answered with
status 500 and a fallback detail that does not contain "2222". -/
theorem C3_duplicate_create_is_500_without_port :
    create_honeypot LoadAttempt.missing 1000 true ["hive-ssh-2222"] true true true "ssh" 2222
      = Except.error (HpExc.base "Honeypot already exists") ∧
    _errResponse (HpExc.base "Honeypot already exists")
      = (500, "A honeypot with this name already exists. Please use a different port.") ∧
    strContains "A honeypot with this name already exists. Please use a different port." "2222"
      = false :=
  ⟨rfl, rfl, rfl⟩

/-- C4: for every honeypot, `stop` and `delete` fail with
`ActiveConnections` whenever the host port has at least one
ESTABLISHED inbound TCP session at the time of the call, and when the
probe tool is missing both operations conservatively fail as if a
connection were active (guard modelled from the spec; the underlying
lifecycle verbs are the embedded `stop_honeypot` / `delete_honeypot`). -/
theorem C4_active_connections_block_stop_delete (probePresent : Bool)
    (established : Nat) (name : String) (so : StopOutcome) (ro : RemoveOutcome)
    (h : 1 ≤ established ∨ probePresent = false) :
    stopGuarded probePresent established name so
      = Except.error (HpExc.activeConnections activeConnectionsMsg) ∧
    deleteGuarded probePresent established name ro
      = Except.error (HpExc.activeConnections activeConnectionsMsg) := by
  have hac : has_active_connections probePresent established = true := by
    rcases h with h1 | h2
    · cases probePresent with
      | false => rfl
      | true => simp [has_active_connections]; exact h1
    · rw [h2]; rfl
  exact ⟨by simp [stopGuarded, hac], by simp [deleteGuarded, hac]⟩

/-- Witness for C4 at a concrete input: one established session on a
running honeypot blocks both verbs. -/
theorem C4_witness :
    stopGuarded true 1 "hive-ssh-2222" StopOutcome.ok
      = Except.error (HpExc.activeConnections activeConnectionsMsg) ∧
    deleteGuarded true 1 "hive-ssh-2222" RemoveOutcome.ok
      = Except.error (HpExc.activeConnections activeConnectionsMsg) :=
  C4_active_connections_block_stop_delete true 1 "hive-ssh-2222"
    StopOutcome.ok RemoveOutcome.ok (Or.inl (by decide))

/-- C5: for every port p in [1, 65535], `check_port(p)` answers
`available = true` iff no managed container claims p and binding a TCP
listener on (0.0.0.0, p) succeeds; and `available = false` whenever
p < 1024 and the process is not elevated (`is_port_in_use` modelled
from the spec; the surrounding endpoint is embedded from the
controller).  The hypothesis `hos` records the operating-system fact
that a non-elevated process cannot bind a privileged port. -/
theorem C5_port_check_iff (euid : Nat) (claimed bindOk : Nat → Bool)
    (p : Nat) (r : PortCheck)
    (hlo : 1 ≤ p) (hhi : p ≤ 65535)
    (hos : p < 1024 → euid ≠ 0 → bindOk p = false)
    (hres : check_port_availability euid claimed bindOk p = Except.ok r) :
    (r.available = true ↔ (claimed p = false ∧ bindOk p = true)) ∧
    (p < 1024 ∧ euid ≠ 0 → r.available = false) := by
  unfold check_port_availability at hres
  rw [if_neg (not_not_intro ⟨hlo, hhi⟩)] at hres
  by_cases hpriv : p < 1024 ∧ euid ≠ 0
  · rw [if_pos hpriv] at hres
    obtain rfl := (Except.ok.inj hres).symm
    refine ⟨?_, fun _ => rfl⟩
    simp only [Bool.false_eq_true, false_iff]
    intro hcl
    rw [hos hpriv.1 hpriv.2] at hcl
    exact absurd hcl.2 (by simp)
  · rw [if_neg hpriv] at hres
    cases hcl : claimed p with
    | true =>
      rw [if_pos (by simp [is_port_in_use, hcl])] at hres
      obtain rfl := (Except.ok.inj hres).symm
      refine ⟨?_, fun hc => absurd hc hpriv⟩
      simp [hcl]
    | false =>
      cases hb : bindOk p with
      | false =>
        rw [if_pos (by simp [is_port_in_use, hcl, hb])] at hres
        obtain rfl := (Except.ok.inj hres).symm
        refine ⟨?_, fun hc => absurd hc hpriv⟩
        simp [hb]
      | true =>
        rw [if_neg (by simp [is_port_in_use, hcl, hb])] at hres
        obtain rfl := (Except.ok.inj hres).symm
        refine ⟨?_, fun hc => absurd hc hpriv⟩
        simp [hcl, hb]

/-- Witness for C5 at a concrete input: an unclaimed, bindable,
unprivileged port 2222 is reported available. -/
theorem C5_witness :
    (({ available := true, message := "Port 2222 is available" } : PortCheck).available = true
      ↔ ((fun _ => false) 2222 = false ∧ (fun _ => true) 2222 = true)) :=
  (C5_port_check_iff 1000 (fun _ => false) (fun _ => true) 2222
    { available := true, message := "Port 2222 is available" }
    (by decide) (by decide) (fun hc => absurd hc (by decide)) rfl).1

/-- Counterexample to C6 as stated: with entry at 1.5 s and exit at
1.0 s, the code stores `int(-0.5) = 0` while the claimed
`floor((exit - entry).total_seconds())` is `-1`. -/
theorem C6_counterexample :
    durationUpdate parseFixture (some "E") (some "X") = some 0 ∧
    floorTotalSeconds (1000000 - 1500000) = -1 ∧ (0 : ℤ) ≠ -1 := by
  refine ⟨rfl, ?_, by decide⟩
  rw [floorTotalSeconds_eq_ediv]
  decide

/-- C6 (amended): when both timestamps are present (truthy) and parse,
`duration_of_attack` is the truncation toward zero of
`(exit - entry).total_seconds()` — which coincides with the claimed
floor exactly when the difference is nonnegative — and when either
parse fails the duration is set to 0. -/
theorem C6_duration_is_truncation (parseTs : String → Option ℤ) (e x : String)
    (he : ¬ e = "") (hx : ¬ x = "") :
    (∀ a b, parseTs e = some a → parseTs x = some b →
      durationUpdate parseTs (some e) (some x) = some (intTotalSeconds (b - a)) ∧
      (0 ≤ b - a → intTotalSeconds (b - a) = floorTotalSeconds (b - a))) ∧
    ((parseTs e = none ∨ parseTs x = none) →
      durationUpdate parseTs (some e) (some x) = some 0) := by
  have ht : (truthy (some e) ∧ truthy (some x)) := by
    simp [truthy, he, hx]
  constructor
  · intro a b ha hb
    constructor
    · simp only [durationUpdate, if_pos ht, ha, hb]
    · intro hle
      rw [intTotalSeconds, if_pos hle, floorTotalSeconds_eq_ediv]
  · intro h
    rcases h with h | h
    · simp only [durationUpdate, if_pos ht, h]
    · cases hpe : parseTs e <;> simp only [durationUpdate, if_pos ht, h, hpe]

/-- Witness for C6 at a concrete input: a forward 1.5 s session gets
duration 1, where truncation and floor agree. -/
theorem C6_duration_witness :
    durationUpdate parseFixtureFwd (some "E") (some "X")
      = some (intTotalSeconds (2500000 - 1000000)) ∧
    intTotalSeconds ((2500000 : ℤ) - 1000000) = floorTotalSeconds (2500000 - 1000000) :=
  ⟨((C6_duration_is_truncation parseFixtureFwd "E" "X" (by decide) (by decide)).1
      1000000 2500000 rfl rfl).1,
   ((C6_duration_is_truncation parseFixtureFwd "E" "X" (by decide) (by decide)).1
      1000000 2500000 rfl rfl).2 (by decide)⟩

/-- C7: every `location` object that `lookup_geolocation` produces has
lat in [−90, 90] and lon in [−180, 180]; and when the lookup fails
(`None`), the indexed document carries neither `location` nor
`country`, while the handler still enriches the record, raises
nothing, and proceeds to the indexing attempt exactly as on the
success path. -/
theorem C7_location_ranges_and_geo_failure :
    (∀ (city : Option String → CityOutcome) (ip : Option String) (gd : GeoData),
      lookupGeolocation city ip = some gd →
      (-90 ≤ gd.lat ∧ gd.lat ≤ 90) ∧ (-180 ≤ gd.lon ∧ gd.lon ≤ 180)) ∧
    (∀ (parseTs : String → Option ℤ) (city : Option String → CityOutcome)
      (ev : RawEvent) (idx : IndexOutcome),
      lookupGeolocation city ev.attackerIp = none →
      (messageHandler parseTs city (some ev) idx false).doc
        = some { durationOfAttack := durationUpdate parseTs ev.timeOfEntry ev.timeOfExit,
                 location := none, country := none, timestampSet := true } ∧
      (messageHandler parseTs city (some ev) idx false).raisedInternally = false ∧
      (messageHandler parseTs city (some ev) idx false).indexed
        = insertIntoOpensearch idx) := by
  constructor
  · intro city ip gd h
    unfold lookupGeolocation at h
    cases hc : city ip with
    | raisesNotFound => rw [hc] at h; exact absurd h (by simp)
    | raisesOther => rw [hc] at h; exact absurd h (by simp)
    | ok la lo cn =>
      rw [hc] at h
      cases la with
      | none => exact absurd h (by simp)
      | some lav =>
        cases lo with
        | none => exact absurd h (by simp)
        | some lov =>
          dsimp only at h
          by_cases hcond : ((-90 ≤ lav ∧ lav ≤ 90) ∧ (-180 ≤ lov ∧ lov ≤ 180))
          · rw [if_pos hcond] at h
            obtain rfl := Option.some.inj h
            exact hcond
          · rw [if_neg hcond] at h
            exact absurd h (by simp)
  · intro parseTs city ev idx h
    refine ⟨?_, rfl, rfl⟩
    simp [messageHandler, enrich, h]

/-- Witness for C7 at concrete inputs: an in-range lookup result, and
a failing lookup that still yields an enriched, indexed document
without `location` and `country`. -/
theorem C7_witness :
    ((-90 ≤ (GeoData.mk 37 122 "United States").lat
        ∧ (GeoData.mk 37 122 "United States").lat ≤ 90)
      ∧ (-180 ≤ (GeoData.mk 37 122 "United States").lon
        ∧ (GeoData.mk 37 122 "United States").lon ≤ 180)) ∧
    ((messageHandler parseFixture cityFixture (some eventFixture) IndexOutcome.success false).doc
      = some { durationOfAttack :=
                 durationUpdate parseFixture eventFixture.timeOfEntry eventFixture.timeOfExit,
               location := none, country := none, timestampSet := true } ∧
     (messageHandler parseFixture cityFixture (some eventFixture)
        IndexOutcome.success false).raisedInternally = false ∧
     (messageHandler parseFixture cityFixture (some eventFixture)
        IndexOutcome.success false).indexed = insertIntoOpensearch IndexOutcome.success) :=
  ⟨C7_location_ranges_and_geo_failure.1 geoCityFixture (some "8.8.8.8")
      (GeoData.mk 37 122 "United States") rfl,
   C7_location_ranges_and_geo_failure.2 parseFixture cityFixture eventFixture
      IndexOutcome.success rfl⟩

/-- Helper: a second `NetworkManager.ensure_exists` on an
already-present network is a no-op. -/
lemma net_ensure_noop (n : String) (s : PodmanState) (h : n ∈ s.networks) :
    network_ensure_exists n s = (s, []) := by
  simp [network_ensure_exists, h]

/-- Helper: after `ensure_exists`, the network is present. -/
lemma net_ensure_mem (n : String) (s : PodmanState) :
    n ∈ (network_ensure_exists n s).1.networks := by
  unfold network_ensure_exists
  split_ifs with h
  · exact h
  · simp

/-- Helper: iterating a step that fixes a state leaves it fixed with
an empty trace. -/
lemma iterate_fixed (f : PodmanState → PodmanState × List PodCmd) (t : PodmanState)
    (hf : f t = (t, [])) : ∀ m, iterateCmds f m t = (t, []) := by
  intro m
  induction m with
  | zero => rfl
  | succ m ih => simp [iterateCmds, hf, ih]

/-- Counterexample to C8 as stated: `ensure_pulled` issues `podman
pull` even when the image is already present, so the "pulls only when
the image is absent" conjunct fails. -/
theorem C8_counterexample :
    "nats:latest" ∈ ({ networks := [], images := ["nats:latest"], containers := [] }
        : PodmanState).images ∧
    (image_ensure_pulled "nats:latest"
        { networks := [], images := ["nats:latest"], containers := [] }).2
      = [PodCmd.pull "nats:latest"] ∧
    [PodCmd.pull "nats:latest"] ≠ ([] : List PodCmd) :=
  ⟨by decide, rfl, by decide⟩

/-- C8 (amended): `NetworkManager.ensure_exists` any number of times
equals calling it once; `ImageManager.ensure_pulled` issues a pull
unconditionally (not only when the image is absent); `ensure_built`
builds exactly when no image with the tag exists; and
`BaseContainerManager.create()` performs no runtime mutation — no
`pre_create`, no create invocation, no `post_create` — when the
container already exists. -/
theorem C8_ensures (n img tag cname : String) (s₁ s₂ s₃ s₄ : PodmanState) (k : Nat) :
    (iterateCmds (network_ensure_exists n) (k + 1) s₁
      = iterateCmds (network_ensure_exists n) 1 s₁) ∧
    ((image_ensure_pulled img s₂).2 = [PodCmd.pull img]) ∧
    ((tag ∈ s₃.images → image_ensure_built tag s₃ = (s₃, [])) ∧
     (tag ∉ s₃.images → (image_ensure_built tag s₃).2 = [PodCmd.build tag])) ∧
    (cname ∈ s₄.containers → base_container_create cname s₄ = (s₄, [])) := by
  refine ⟨?_, rfl, ⟨?_, ?_⟩, ?_⟩
  · rcases hfs : network_ensure_exists n s₁ with ⟨s', cs⟩
    have hmem : n ∈ s'.networks := by
      have h := net_ensure_mem n s₁
      rw [hfs] at h
      exact h
    have hfix := iterate_fixed _ _ (net_ensure_noop n s' hmem)
    simp only [iterateCmds, hfs, hfix]
  · intro h
    simp [image_ensure_built, h]
  · intro h
    simp [image_ensure_built, h]
  · intro h
    simp [base_container_create, h]

/-- Witness for C8 at concrete inputs: three ensure calls equal one;
a present image is pulled again; a present tag is not rebuilt; an
existing container is not re-created. -/
theorem C8_witness :
    (iterateCmds (network_ensure_exists "hive-net") 3 emptyPodman
      = iterateCmds (network_ensure_exists "hive-net") 1 emptyPodman) ∧
    ((image_ensure_pulled "nats:latest" emptyPodman).2 = [PodCmd.pull "nats:latest"]) ∧
    (image_ensure_built "hive-ssh-image"
        { networks := [], images := ["hive-ssh-image"], containers := [] }
      = ({ networks := [], images := ["hive-ssh-image"], containers := [] }, [])) ∧
    (base_container_create "hive-nats-server"
        { networks := [], images := [], containers := ["hive-nats-server"] }
      = ({ networks := [], images := [], containers := ["hive-nats-server"] }, [])) :=
  ⟨(C8_ensures "hive-net" "nats:latest" "hive-ssh-image" "hive-nats-server"
      emptyPodman emptyPodman emptyPodman emptyPodman 2).1,
   (C8_ensures "hive-net" "nats:latest" "hive-ssh-image" "hive-nats-server"
      emptyPodman emptyPodman emptyPodman emptyPodman 2).2.1,
   (C8_ensures "hive-net" "nats:latest" "hive-ssh-image" "hive-nats-server"
      emptyPodman emptyPodman
      { networks := [], images := ["hive-ssh-image"], containers := [] }
      emptyPodman 2).2.2.1.1 (by decide),
   (C8_ensures "hive-net" "nats:latest" "hive-ssh-image" "hive-nats-server"
      emptyPodman emptyPodman emptyPodman
      { networks := [], images := [], containers := ["hive-nats-server"] } 2).2.2.2
      (by decide)⟩

/-- Helper: the keys of the default catalog are exactly `ssh` and
`ftp`. -/
lemma default_keys (t : String) :
    ((DEFAULT_CONFIGS.lookup t).isSome = true) ↔ (t = "ssh" ∨ t = "ftp") := by
  by_cases h1 : t = "ssh"
  · subst h1; simp [DEFAULT_CONFIGS]
  · by_cases h2 : t = "ftp"
    · subst h2; simp [DEFAULT_CONFIGS]
    · have e1 : (t == "ssh") = false := by simp [h1]
      have e2 : (t == "ftp") = false := by simp [h2]
      simp [DEFAULT_CONFIGS, List.lookup, e1, e2]
      exact ⟨h1, h2⟩

/-- C9: when loading the on-disk type catalog fails for any reason —
file missing, unreadable, or invalid YAML — the catalog silently
becomes the built-in defaults, whose only keys are `ssh` and `ftp`;
`type_exists t` then holds iff t is `ssh` or `ftp`, `get_config` for
any other type raises the unknown-type error, and `create` for any
other type (such as `http`) fails with the unknown-type message (as
the base `HoneypotError` its `except` clause rewraps it into). -/
theorem C9_catalog_fallback (a : LoadAttempt)
    (h : a = LoadAttempt.missing ∨ a = LoadAttempt.readErr ∨ a = LoadAttempt.yamlErr) :
    load_configs a = DEFAULT_CONFIGS ∧
    (∀ t, type_exists a t = true ↔ (t = "ssh" ∨ t = "ftp")) ∧
    get_config a "http" = Except.error (HpExc.typeNotFound (unknownTypeMsg "http")) ∧
    (∀ (euid : Nat) (dirExists : Bool) (existing : List String)
      (imageExists buildOk containerOk : Bool) (p : Nat),
      create_honeypot a euid dirExists existing imageExists buildOk containerOk "http" p
        = Except.error (HpExc.base (unknownTypeMsg "http"))) := by
  have hl : load_configs a = DEFAULT_CONFIGS := by
    rcases h with h | h | h <;> subst h <;> rfl
  refine ⟨hl, ?_, ?_, ?_⟩
  · intro t
    rw [type_exists, hl]
    exact default_keys t
  · rw [get_config, hl]
    rfl
  · intro euid dirExists existing imageExists buildOk containerOk p
    have hne : type_exists a "http" = false := by
      rw [type_exists, hl]
      rfl
    rw [create_honeypot, createBody, if_pos (by rw [hne]; exact Bool.false_ne_true)]
    rfl

/-- Witness for C9 at a concrete input: the missing-file case. -/
theorem C9_witness :
    load_configs LoadAttempt.missing = DEFAULT_CONFIGS ∧
    (type_exists LoadAttempt.missing "http" = true ↔ ("http" = "ssh" ∨ "http" = "ftp")) ∧
    get_config LoadAttempt.missing "http"
      = Except.error (HpExc.typeNotFound (unknownTypeMsg "http")) ∧
    create_honeypot LoadAttempt.missing 1000 true [] true true true "http" 2222
      = Except.error (HpExc.base (unknownTypeMsg "http")) :=
  ⟨(C9_catalog_fallback LoadAttempt.missing (Or.inl rfl)).1,
   (C9_catalog_fallback LoadAttempt.missing (Or.inl rfl)).2.1 "http",
   (C9_catalog_fallback LoadAttempt.missing (Or.inl rfl)).2.2.1,
   (C9_catalog_fallback LoadAttempt.missing (Or.inl rfl)).2.2.2 1000 true [] true true true 2222⟩

/-- C10: `message_handler` is total over every modelled fault
configuration — JSON decode failure, enrichment and indexing failures,
a failing `ack` — because its whole body sits inside
`try ... except Exception`, so no exception reaches the consumer loop;
and whenever the outer `except` was the exit path, the message was not
acknowledged. -/
theorem C10_handler_never_propagates (parseTs : String → Option ℤ)
    (city : Option String → CityOutcome) (decoded : Option RawEvent)
    (idx : IndexOutcome) (ackRaises : Bool)
    (h : (messageHandler parseTs city decoded idx ackRaises).raisedInternally = true) :
    (messageHandler parseTs city decoded idx ackRaises).acked = false := by
  cases decoded with
  | none => rfl
  | some ev =>
    cases ackRaises with
    | false => simp [messageHandler] at h
    | true => rfl

/-- Witness for C10 at a concrete input: a payload that fails JSON
decoding is left unacknowledged. -/
theorem C10_witness :
    (messageHandler parseFixture cityFixture none IndexOutcome.success false).acked = false :=
  C10_handler_never_propagates parseFixture cityFixture none IndexOutcome.success false rfl

end HIVE
